import Mathlib

/-!
Shallow embedding of `velocity_controller.py`, the adaptive surface-aware
velocity controller: a per-surface speed/acceleration profile registry, a
vibration monitor that ratchets the active profile's max speed, a bumpiness
anticipation tracker gated by travelled distance, and a joystick command
shaper with acceleration clamp and PID correction.

Python floats are modelled as exact rationals (`ℚ`); the surface dictionary
as `Int → Option SurfaceProfile`; each ROS callback as a pure state
transformer on a record holding all of the script's module-level globals.
-/

/-- A per-surface profile: the value type of the `surface_data` dictionary,
whose entries are `{"max_x_vel": …, "max_accel": …}`. -/
structure SurfaceProfile where
  max_x_vel : ℚ
  max_accel : ℚ
deriving DecidableEq

/-- The default profile `default_dict = {"max_x_vel": 2.0, "max_accel": 0.25}`. -/
def default_dict : SurfaceProfile := { max_x_vel := 2, max_accel := 1/4 }

/-- The threshold `vibration_threshold = 0.45`. -/
def vibration_threshold : ℚ := 45/100

/-- The lookahead `lidar_look_ahead_distance_m = .45` (local constant of `odometry_callback`). -/
def lidar_look_ahead_distance_m : ℚ := 45/100

/-- PID gain `kp = 1`. -/
def kp : ℚ := 1

/-- PID gain `ki = 0.001`. -/
def ki : ℚ := 1/1000

/-- PID gain `kd = 0.00001`. -/
def kd : ℚ := 1/100000

/-- Dictionary store: `m[i] = p` (Python dict assignment on integer key). -/
def setSurf (m : Int → Option SurfaceProfile) (i : Int) (p : SurfaceProfile) :
    Int → Option SurfaceProfile :=
  fun j => if j = i then some p else m j

/-- All module-level mutable globals of the script. -/
structure ControlState where
  surface_data : Int → Option SurfaceProfile
  current_surface : Int
  previous_surface : Int
  previous_bumpiness : ℚ
  current_bumpiness : ℚ
  upcoming_bumpiness : Bool
  surface_transition : Bool
  start_position : ℚ
  accels : List ℚ
  z_vibrations : ℚ
  previous_stamp : ℚ
  previous_x_velocity : ℚ
  older_x_velocity : ℚ
  previous_error : ℚ
  p_error : ℚ
  i_error : ℚ
  d_error : ℚ
  current_x_vel : ℚ
  delta_t : ℚ
  previous_odometry_reading_time : ℚ

/-- The initial values of every global (`surface_data = {-1: default_dict.copy()}`,
`current_surface = previous_surface = -1`, `z_vibrations = -1`, all else zero
or empty or false). -/
def initialState : ControlState :=
  { surface_data := fun j => if j = -1 then some default_dict else none
    current_surface := -1
    previous_surface := -1
    previous_bumpiness := 0
    current_bumpiness := 0
    upcoming_bumpiness := false
    surface_transition := false
    start_position := 0
    accels := []
    z_vibrations := -1
    previous_stamp := 0
    previous_x_velocity := 0
    older_x_velocity := 0
    previous_error := 0
    p_error := 0
    i_error := 0
    d_error := 0
    current_x_vel := 0
    delta_t := 0
    previous_odometry_reading_time := 0 }

/-- Header stamp `current_stamp = (10**-9) * nsecs + secs` (common to the odometry and
joystick callbacks). -/
def stampOf (secs nsecs : ℤ) : ℚ := (1 / 10 ^ 9) * (nsecs : ℚ) + (secs : ℚ)

/-- Embeds `surface_callback(data)`: record the previous surface; if the new surface
has no dictionary entry, either promote the sentinel's profile (when the
previous surface was `-1`) and reset the sentinel to the defaults, or create
a fresh default entry; if the new surface is already known, reset the
sentinel to the defaults.  The sentinel lookup uses `getD default_dict`: in
the source `surface_data[-1]` always exists (a `KeyError` is unreachable
because the `-1` entry is created at start-up and every branch that touches
it rewrites it with a full profile). -/
def surface_callback (d : Int) (s : ControlState) : ControlState :=
  let previous := s.current_surface
  let current := d
  if s.surface_data current = none then
    if previous = -1 then
      { s with previous_surface := previous, current_surface := current,
               surface_data :=
                 setSurf (setSurf s.surface_data current
                     ((s.surface_data (-1)).getD default_dict))
                   (-1) default_dict }
    else
      { s with previous_surface := previous, current_surface := current,
               surface_data := setSurf s.surface_data current default_dict }
  else
    { s with previous_surface := previous, current_surface := current,
             surface_data := setSurf s.surface_data (-1) default_dict }

/-- Embeds `bumpiness_callback(data)`: shift the roughness history and latch the
anticipation flags.  `1.75 = 7/4`. -/
def bumpiness_callback (d : ℚ) (s : ControlState) : ControlState :=
  let previous := s.current_bumpiness
  let current := d
  let upcoming :=
    if current > previous * (7/4) ∧ previous ≠ 0 then true else s.upcoming_bumpiness
  let transition :=
    if current < previous / (7/4) ∧ previous ≠ 0 then true else s.surface_transition
  { s with previous_bumpiness := previous, current_bumpiness := current,
           upcoming_bumpiness := upcoming, surface_transition := transition }

/-- The fields of an `Odometry` message the callback reads:
`twist.twist.linear.x`, the header stamp, and `pose.pose.position.x`. -/
structure OdometryMsg where
  linear_x : ℚ
  secs : ℤ
  nsecs : ℤ
  position_x : ℚ

/-- Embeds `odometry_callback(data)`: update measured velocity and elapsed time,
then run the distance-gated anticipation window: open it (record
`start_position`) when a flag is latched and `start_position == 0`; close it
and clear both flags once `|current_position - start_position| >= 0.45`. -/
def odometry_callback (d : OdometryMsg) (s : ControlState) : ControlState :=
  let current_stamp := stampOf d.secs d.nsecs
  let s1 := { s with current_x_vel := d.linear_x,
                     delta_t := current_stamp - s.previous_odometry_reading_time,
                     previous_odometry_reading_time := current_stamp }
  let current_position := d.position_x
  let s2 :=
    if (s1.upcoming_bumpiness ∨ s1.surface_transition) ∧ s1.start_position = 0 then
      { s1 with start_position := current_position }
    else s1
  if s2.start_position ≠ 0 ∧
      |current_position - s2.start_position| ≥ lidar_look_ahead_distance_m then
    { s2 with upcoming_bumpiness := false, surface_transition := false,
              start_position := 0 }
  else s2

/-- Embeds `calculate_pid(target_velocity)`: returns the corrected velocity and the
updated PID state (`p_error`, `i_error`, `d_error`, `previous_error`). -/
def calculate_pid (target_velocity : ℚ) (s : ControlState) : ℚ × ControlState :=
  let p_err := target_velocity - s.current_x_vel
  let i_err := s.i_error + p_err * s.delta_t
  let d_err := if s.delta_t > 0 then (p_err - s.previous_error) / s.delta_t
               else s.d_error
  (kp * p_err + ki * i_err + kd * d_err + s.current_x_vel,
   { s with p_error := p_err, i_error := i_err, d_error := d_err,
            previous_error := p_err })

/-- The mean used by `np.std(accels)`: `sum / length`. -/
def npMean (xs : List ℚ) : ℚ := xs.sum / xs.length

/-- The square of `np.std(accels)` (population variance, divisor `N`):
`np.std` returns the square root of this quantity. -/
def npVariance (xs : List ℚ) : ℚ :=
  ((xs.map fun x => (x - npMean xs) ^ 2).sum) / xs.length

/-- Embeds `imu_callback(data)`: buffer the vertical acceleration; once the buffer
holds 20 samples, evaluate the window and clear it; ratchet the active
surface's `max_x_vel` to `min(|previous_x_velocity|, current_max) - 0.15`
when `np.std(accels) > 0.45` (expressed as the exact-rational comparison
`npVariance > vibration_threshold ^ 2`, equivalent for the positive
threshold — see `np_std_gt_threshold_iff`), the command magnitude strictly
increased (`abs(older) < abs(previous)`), and `surface_transition` is not
set.  The dictionary entry for `current_surface` always exists in the
source (a `KeyError` is unreachable); the `none` branch is a benign
totalization. -/
def imu_callback (z : ℚ) (s : ControlState) : ControlState :=
  let accels := s.accels ++ [z]
  if 20 ≤ accels.length then
    if npVariance accels > vibration_threshold ^ 2 ∧
        |s.older_x_velocity| < |s.previous_x_velocity| ∧
        s.surface_transition = false then
      match s.surface_data s.current_surface with
      | some prof =>
          { s with z_vibrations := z, accels := [],
                   surface_data :=
                     setSurf s.surface_data s.current_surface
                       { prof with
                           max_x_vel :=
                             min |s.previous_x_velocity| prof.max_x_vel - 3/20 } }
      | none => { s with z_vibrations := z, accels := [] }
    else { s with z_vibrations := z, accels := [] }
  else { s with z_vibrations := z, accels := accels }

/-- The fields of a `Joy` message the callback reads: `buttons[9]` (deadman),
`axes[1]`, and the header stamp. -/
structure JoyMsg where
  buttons9 : ℤ
  axes1 : ℚ
  secs : ℤ
  nsecs : ℤ

/-- The header stamp of a joystick message. -/
def joyStamp (d : JoyMsg) : ℚ := stampOf d.secs d.nsecs

/-- Steps 2–4 of the shaper: map the axis to a signed speed (`axes[1] * -2`),
split into direction and magnitude, clamp the magnitude to `0.2` when a
rougher surface is anticipated, then to the active profile's `max_x_vel`,
and reapply the direction.  The profile lookup uses `getD default_dict`:
`surface_data[current_surface]` always exists in the source. -/
def clamped_target (d : JoyMsg) (s : ControlState) : ℚ :=
  let input0 := d.axes1 * (-2)
  let dir : ℚ := if input0 < 0 then -1 else 1
  let mag0 := |input0|
  let mag := if s.upcoming_bumpiness ∧ mag0 > 1/5 then 1/5 else mag0
  let prof := (s.surface_data s.current_surface).getD default_dict
  min prof.max_x_vel mag * dir

/-- The acceleration clamp: if `|(clamped_target - previous)/dt|` exceeds the
profile's `max_accel`, replace the target by
`sign(a) * max_accel * dt + previous`. -/
def ramped_target (d : JoyMsg) (s : ControlState) : ℚ :=
  let prof := (s.surface_data s.current_surface).getD default_dict
  let dt := joyStamp d - s.previous_stamp
  let dv := clamped_target d s - s.previous_x_velocity
  let a := dv / dt
  if |a| > prof.max_accel then
    (if a < 0 then -prof.max_accel else prof.max_accel) * dt + s.previous_x_velocity
  else clamped_target d s

/-- The observable outcome of one joystick callback. -/
inductive JoyResult where
  /-- Deadman (`buttons[9]`) not pressed: the callback returns without
  publishing. -/
  | noCommand : JoyResult
  /-- The `previous_x_velocity` magnitude guard fired and the code ran
  `sys.quit()` — an attribute that does not exist on `sys`, so an
  `AttributeError` is raised before any state mutation and before any
  publish. -/
  | fatalAnomaly : JoyResult
  /-- A `Twist` with `linear.x = v` was published. -/
  | published : ℚ → JoyResult
deriving DecidableEq

/-- Embeds `joystick_callback(data)`: deadman gate, anomaly guard, zero-`dt` /
first-sample hold, acceleration clamp, PID correction, history shift, and
publish. -/
def joystick_callback (d : JoyMsg) (s : ControlState) : JoyResult × ControlState :=
  if d.buttons9 = 0 then (JoyResult.noCommand, s)
  else if s.previous_x_velocity > 2 ∨ s.previous_x_velocity < -2 then
    (JoyResult.fatalAnomaly, s)
  else if joyStamp d - s.previous_stamp = 0 ∨ s.previous_stamp = 0 then
    (JoyResult.published s.previous_x_velocity,
     { s with previous_stamp := joyStamp d })
  else
    let r := calculate_pid (ramped_target d s) s
    (JoyResult.published r.1,
     { r.2 with previous_stamp := joyStamp d,
                older_x_velocity := s.previous_x_velocity,
                previous_x_velocity := r.1 })

/-- One event delivered to the controller: one message on one of the five
subscribed topics. -/
inductive Event where
  /-- An `Int16` on `surface_detection`. -/
  | surface : Int → Event
  /-- A `Float32` on `surface_bumpiness`. -/
  | bumpiness : ℚ → Event
  /-- An `Odometry` on `/odometry/filtered`. -/
  | odometry : OdometryMsg → Event
  /-- An `Imu` on `/imu/data` (only `linear_acceleration.z` is read). -/
  | imu : ℚ → Event
  /-- A `Joy` on `/bluetooth_teleop/joy`. -/
  | joystick : JoyMsg → Event

/-- Dispatch one event to its callback (the state part only). -/
def step (s : ControlState) : Event → ControlState
  | Event.surface d => surface_callback d s
  | Event.bumpiness d => bumpiness_callback d s
  | Event.odometry d => odometry_callback d s
  | Event.imu z => imu_callback z s
  | Event.joystick d => (joystick_callback d s).2

/-- Run a list of events from a given state. -/
def runFrom (s : ControlState) : List Event → ControlState
  | [] => s
  | e :: es => runFrom (step s e) es

/-- Run a list of events from the initial state. -/
def run (es : List Event) : ControlState := runFrom initialState es

/-- The surface ids carried by the surface events of a trace. -/
def surfaceIds (es : List Event) : List Int :=
  es.filterMap fun e =>
    match e with
    | Event.surface d => some d
    | _ => none

/-- State used by the C4 witness: rougher flag latched, window open at 1. -/
def c4WitnessState : ControlState :=
  { initialState with upcoming_bumpiness := true, start_position := 1 }

/-- Position sample used by the C4 witness. -/
def c4WitnessMsg : OdometryMsg :=
  { linear_x := 0, secs := 1, nsecs := 0, position_x := 2 }

/-- Trace for the C4 counterexample: two roughness samples (0.7 then 0.2)
latch the *smoother* flag and a window opens at x = 10; the robot reaches
x = 10.4; a roughness sample 0.4 then latches the *rougher* flag. -/
def c4latchTrace : List Event :=
  [Event.bumpiness (7/10), Event.bumpiness (1/5),
   Event.odometry { linear_x := 0, secs := 1, nsecs := 0, position_x := 10 },
   Event.odometry { linear_x := 0, secs := 2, nsecs := 0, position_x := 52/5 },
   Event.bumpiness (2/5)]

/-- The C4 counterexample trace continued: samples at x = 10.44 and
x = 10.46. -/
def c4fullTrace : List Event :=
  c4latchTrace ++
    [Event.odometry { linear_x := 0, secs := 3, nsecs := 0, position_x := 261/25 },
     Event.odometry { linear_x := 0, secs := 4, nsecs := 0, position_x := 523/50 }]

/-- Trace for C10: latch the rougher flag, then an odometry sample at
exactly x = 0. -/
def c10latchTrace : List Event :=
  [Event.bumpiness (1/10), Event.bumpiness (3/10),
   Event.odometry { linear_x := 0, secs := 1, nsecs := 0, position_x := 0 }]

/-- The C10 trace continued: the robot travels to x = 1 (a full metre). -/
def c10fullTrace : List Event :=
  c10latchTrace ++
    [Event.odometry { linear_x := 0, secs := 2, nsecs := 0, position_x := 1 }]

/-- State used by the C2 witness: 19 buffered samples (ten 0s, nine 1s),
command magnitude just increased from 0 to 0.25, rougher transition
anticipated (which must not matter), smoother flag clear. -/
def c2WitnessState : ControlState :=
  { initialState with
      accels := [0,0,0,0,0,0,0,0,0,0,1,1,1,1,1,1,1,1,1]
      previous_x_velocity := 1/4
      upcoming_bumpiness := true }

/-- Joystick messages for the C2 counterexample trace. -/
def c2joyHold : JoyMsg := { buttons9 := 1, axes1 := -1/2, secs := 1, nsecs := 0 }

/-- Second joystick message of the C2 counterexample trace (one second
later, same stick deflection). -/
def c2joyGo : JoyMsg := { buttons9 := 1, axes1 := -1/2, secs := 2, nsecs := 0 }

/-- C2 counterexample trace, first part: drive the command from 0 to 0.25
(strict magnitude increase), latch the rougher-transition flag with
roughness samples 0.1 then 0.3, then feed 19 IMU samples (ten 0s, nine 1s). -/
def c2preTrace : List Event :=
  [Event.joystick c2joyHold, Event.joystick c2joyGo,
   Event.bumpiness (1/10), Event.bumpiness (3/10)]
    ++ List.replicate 10 (Event.imu 0) ++ List.replicate 9 (Event.imu 1)

/-- C2 counterexample trace: the 20th IMU sample completes the window. -/
def c2fullTrace : List Event := c2preTrace ++ [Event.imu 1]

/-- Odometry message of the C3 counterexample: sets measured velocity 0 and
elapsed time 1. -/
def c3odoMsg : OdometryMsg := { linear_x := 0, secs := 1, nsecs := 0, position_x := 10 }

/-- First joystick sample of the C3 counterexample (a first-sample hold). -/
def c3joy1 : JoyMsg := { buttons9 := 1, axes1 := -1, secs := 1, nsecs := 0 }

/-- Second joystick sample of the C3 counterexample, one second later at
full stick deflection. -/
def c3joy2 : JoyMsg := { buttons9 := 1, axes1 := -1, secs := 2, nsecs := 0 }

/-- State at the C3 counterexample's decisive sample. -/
def c3state : ControlState := run [Event.odometry c3odoMsg, Event.joystick c3joy1]

/-! ### Basic trace lemmas -/

/-- Running an extended trace runs the last event on the final state. -/
theorem runFrom_append_one (s : ControlState) (es : List Event) (e : Event) :
    runFrom s (es ++ [e]) = step (runFrom s es) e := by
  induction es generalizing s with
  | nil => rfl
  | cons a as ih => simpa [runFrom] using ih (step s a)

/-! ### Claim theorems: PID corrector, hold tick, anomaly guard -/

/-- Claim C5: each call of `calculate_pid` with target `t`, measured velocity
`m = current_x_vel`, elapsed time `e = delta_t` sets the proportional error to
`t - m`, increments the integral error by `(t - m) * e` unconditionally,
updates the derivative error to `(p - previous_error)/e` exactly when `e > 0`
(otherwise keeping its prior value), and returns
`1*p + 0.001*i + 0.00001*d + m` with the freshly updated `p`, `i`, `d`. -/
theorem calculate_pid_spec (t : ℚ) (s : ControlState) :
    (calculate_pid t s).2.p_error = t - s.current_x_vel ∧
    (calculate_pid t s).2.i_error =
      s.i_error + (t - s.current_x_vel) * s.delta_t ∧
    (calculate_pid t s).2.d_error =
      (if 0 < s.delta_t then
        ((t - s.current_x_vel) - s.previous_error) / s.delta_t
       else s.d_error) ∧
    (calculate_pid t s).2.previous_error = t - s.current_x_vel ∧
    (calculate_pid t s).1 =
      1 * (calculate_pid t s).2.p_error +
        (1/1000) * (calculate_pid t s).2.i_error +
        (1/100000) * (calculate_pid t s).2.d_error + s.current_x_vel := by
  refine ⟨rfl, rfl, rfl, rfl, ?_⟩
  simp [calculate_pid, kp, ki, kd]

/-- Claim C7: a joystick sample whose stamp equals the stored previous stamp
(so `dt == 0`) re-emits the previous commanded velocity and, because the new
stamp equals the old one, leaves the entire control state unchanged (the only
assignment is `previous_stamp := current_stamp`, a no-op here); it requires
the deadman button pressed and the anomaly guard not tripped. -/
theorem joystick_hold_on_zero_dt (d : JoyMsg) (s : ControlState)
    (hdead : d.buttons9 ≠ 0)
    (hguard : ¬(s.previous_x_velocity > 2 ∨ s.previous_x_velocity < -2))
    (hstamp : joyStamp d = s.previous_stamp) :
    joystick_callback d s = (JoyResult.published s.previous_x_velocity, s) := by
  simp only [joystick_callback, if_neg hdead, if_neg hguard, hstamp, sub_self,
    true_or, if_pos]

/-- Witness for C7: from the initial state (previous stamp 0), a sample with
stamp 0 and the deadman pressed re-emits velocity 0 and changes nothing. -/
theorem joystick_hold_on_zero_dt_witness :
    joystick_callback { buttons9 := 1, axes1 := 1, secs := 0, nsecs := 0 }
        initialState =
      (JoyResult.published initialState.previous_x_velocity, initialState) :=
  joystick_hold_on_zero_dt _ _ (by decide) (by norm_num [initialState])
    (by norm_num [joyStamp, stampOf, initialState])

/-- Claim C8 (code bug): when the stored previous commanded velocity's
magnitude exceeds 2, the callback reaches `sys.quit()` before publishing and
before any state mutation.  `sys.quit` does not exist — the line raises
`AttributeError` instead of terminating the process (under the ROS runtime
the exception is caught and logged by the dispatcher, so the loop keeps
running); the intended `sys.exit` abort never happens.  What the embedding
can state: the callback yields the exceptional outcome, emits no command,
and leaves the state untouched. -/
theorem joystick_anomaly_guard (d : JoyMsg) (s : ControlState)
    (hdead : d.buttons9 ≠ 0)
    (h : s.previous_x_velocity > 2 ∨ s.previous_x_velocity < -2) :
    joystick_callback d s = (JoyResult.fatalAnomaly, s) := by
  simp only [joystick_callback, if_neg hdead, if_pos h]

/-- Witness for C8: previous commanded velocity `5/2 > 2`, deadman pressed. -/
theorem joystick_anomaly_guard_witness :
    joystick_callback { buttons9 := 1, axes1 := 0, secs := 3, nsecs := 0 }
        { initialState with previous_x_velocity := 5/2 } =
      (JoyResult.fatalAnomaly, { initialState with previous_x_velocity := 5/2 }) :=
  joystick_anomaly_guard _ _ (by decide) (by norm_num)

/-! ### Registry bookkeeping lemmas -/

/-- Dictionary lookup of a freshly stored key. -/
theorem setSurf_self (m : Int → Option SurfaceProfile) (i : Int)
    (p : SurfaceProfile) : setSurf m i p i = some p := by
  simp [setSurf]

/-- Dictionary lookup of a different key. -/
theorem setSurf_other (m : Int → Option SurfaceProfile) (i : Int)
    (p : SurfaceProfile) (j : Int) (h : j ≠ i) : setSurf m i p j = m j := by
  simp [setSurf, h]

/-- The bumpiness callback never touches the surface dictionary. -/
theorem bumpiness_surface_data_eq (d : ℚ) (s : ControlState) :
    (bumpiness_callback d s).surface_data = s.surface_data := rfl

/-- The odometry callback never touches the surface dictionary. -/
theorem odometry_surface_data_eq (d : OdometryMsg) (s : ControlState) :
    (odometry_callback d s).surface_data = s.surface_data := by
  unfold odometry_callback
  dsimp only
  split <;> split <;> rfl

/-- The joystick callback never touches the surface dictionary. -/
theorem joystick_surface_data_eq (d : JoyMsg) (s : ControlState) :
    ((joystick_callback d s).2).surface_data = s.surface_data := by
  unfold joystick_callback
  dsimp only
  split_ifs <;> rfl

/-- No event ever creates an entry for a non-sentinel id that is not the id
of that surface event: a missing entry stays missing. -/
theorem step_preserves_none (e : Event) (s : ControlState) (A : Int)
    (hA : A ≠ -1) (hs : s.surface_data A = none)
    (he : ∀ d, e = Event.surface d → A ≠ d) :
    (step s e).surface_data A = none := by
  cases e with
  | surface d =>
      have hd : A ≠ d := he d rfl
      simp only [step]
      unfold surface_callback
      dsimp only
      split_ifs <;> simp [setSurf, hA, hd, hs]
  | bumpiness d => simpa [step, bumpiness_surface_data_eq] using hs
  | odometry d => simpa [step, odometry_surface_data_eq] using hs
  | imu z =>
      simp only [step]
      unfold imu_callback
      dsimp only
      split_ifs with h1 h2
      · cases hc : s.surface_data s.current_surface with
        | none => simp [hc, hs]
        | some prof =>
            have hcur : A ≠ s.current_surface := by
              intro h
              rw [h, hc] at hs
              exact Option.noConfusion hs
            simp [hc, setSurf, hcur, hs]
      · simpa using hs
      · simpa using hs
  | joystick d => simpa [step, joystick_surface_data_eq] using hs

/-- Unfolding `surfaceIds` over a cons: a surface event contributes its id,
any other event contributes nothing. -/
theorem surfaceIds_cons (e : Event) (es : List Event) :
    surfaceIds (e :: es) =
      (match e with | Event.surface d => [d] | _ => []) ++ surfaceIds es := by
  cases e <;> rfl

/-- Over a whole trace: an id that never occurs as a surface event and is
not the sentinel never acquires an entry. -/
theorem runFrom_preserves_none (es : List Event) (A : Int) (hA : A ≠ -1)
    (hes : A ∉ surfaceIds es) :
    ∀ s : ControlState, s.surface_data A = none →
      (runFrom s es).surface_data A = none := by
  induction es with
  | nil => intro s hs; exact hs
  | cons e es ih =>
      intro s hs
      rw [surfaceIds_cons, List.mem_append] at hes
      push_neg at hes
      refine ih hes.2 (step s e) (step_preserves_none e s A hA hs ?_)
      intro d hd
      subst hd
      simpa using hes.1

/-- Every event preserves the presence of the sentinel entry. -/
theorem step_sentinel_isSome (e : Event) (s : ControlState)
    (hs : (s.surface_data (-1)).isSome) :
    ((step s e).surface_data (-1)).isSome := by
  cases e with
  | surface d =>
      simp only [step]
      unfold surface_callback
      dsimp only
      split_ifs with h1 h2
      · simp [setSurf]
      · simp only [setSurf]
        split <;> simp [hs]
      · simp [setSurf]
  | bumpiness d => simpa [step, bumpiness_surface_data_eq] using hs
  | odometry d => simpa [step, odometry_surface_data_eq] using hs
  | imu z =>
      simp only [step]
      unfold imu_callback
      dsimp only
      split_ifs with h1 h2
      · cases hc : s.surface_data s.current_surface with
        | none => simpa [hc] using hs
        | some prof =>
            simp only [hc, setSurf]
            split <;> simp [hs]
      · simpa using hs
      · simpa using hs
  | joystick d => simpa [step, joystick_surface_data_eq] using hs

/-- The sentinel entry is present in every reachable state. -/
theorem run_sentinel_isSome (es : List Event) :
    ((run es).surface_data (-1)).isSome := by
  suffices h : ∀ s : ControlState, (s.surface_data (-1)).isSome →
      ((runFrom s es).surface_data (-1)).isSome by
    exact h initialState (by simp [initialState, default_dict])
  induction es with
  | nil => intro s hs; exact hs
  | cons e es ih => intro s hs; exact ih (step s e) (step_sentinel_isSome e s hs)

/-! ### Claim C1: profile promotion on leaving the unknown surface -/

/-- Claim C1: on a surface-change event whose new id `A` has no existing
profile (its first appearance in the trace, `A ≠ -1`), if the active surface
at that moment was the unknown sentinel `-1`, then the sentinel's current
(possibly vibration-adjusted) profile is copied into a brand-new entry for
`A`, and immediately afterwards the sentinel's profile equals the default
`{max_x_vel: 2.0, max_accel: 0.25}`. -/
theorem surface_promotion (es : List Event) (A : Int) (hA : A ≠ -1)
    (hnew : A ∉ surfaceIds es)
    (hprev : (run es).current_surface = -1) :
    (run (es ++ [Event.surface A])).surface_data A =
      (run es).surface_data (-1) ∧
    (run (es ++ [Event.surface A])).surface_data (-1) = some default_dict := by
  have hnone : (run es).surface_data A = none :=
    runFrom_preserves_none es A hA hnew initialState (by simp [initialState, hA])
  obtain ⟨q, hq⟩ := Option.isSome_iff_exists.mp (run_sentinel_isSome es)
  have hstep : run (es ++ [Event.surface A]) =
      surface_callback A (run es) := by
    rw [run, runFrom_append_one]
    rfl
  rw [hstep]
  unfold surface_callback
  rw [if_pos hnone, if_pos hprev]
  constructor
  · simp [setSurf, hA, hq]
  · simp [setSurf]

/-- Witness for C1: from the empty trace (active surface is the sentinel),
the first occurrence of surface `3` copies the sentinel's profile and resets
the sentinel to the defaults. -/
theorem surface_promotion_witness :
    (run ([] ++ [Event.surface 3])).surface_data 3 =
      (run []).surface_data (-1) ∧
    (run ([] ++ [Event.surface 3])).surface_data (-1) = some default_dict :=
  surface_promotion [] 3 (by decide) (by simp [surfaceIds]) rfl

/-! ### Claim C9: every stored profile keeps the default max_accel -/

/-- Each event preserves the invariant that every stored profile has
`max_accel = 0.25`: new entries are defaults or copies of stored profiles,
and the vibration ratchet rewrites only `max_x_vel`. -/
theorem step_accel_invariant (e : Event) (s : ControlState)
    (hs : ∀ i p, s.surface_data i = some p → p.max_accel = 1/4) :
    ∀ i p, (step s e).surface_data i = some p → p.max_accel = 1/4 := by
  cases e with
  | surface d =>
      simp only [step]
      unfold surface_callback
      dsimp only
      intro i p hpi
      split_ifs at hpi with h1 h2
      · simp only [setSurf] at hpi
        split at hpi
        · cases Option.some.inj hpi
          rfl
        · split at hpi
          · cases hsent : s.surface_data (-1) with
            | none => rw [hsent] at hpi; cases Option.some.inj hpi; rfl
            | some q =>
                rw [hsent] at hpi
                cases Option.some.inj hpi
                exact hs (-1) q hsent
          · exact hs i p hpi
      · simp only [setSurf] at hpi
        split at hpi
        · cases Option.some.inj hpi
          rfl
        · exact hs i p hpi
      · simp only [setSurf] at hpi
        split at hpi
        · cases Option.some.inj hpi
          rfl
        · exact hs i p hpi
  | bumpiness d => simpa [step, bumpiness_surface_data_eq] using hs
  | odometry d => simpa [step, odometry_surface_data_eq] using hs
  | imu z =>
      simp only [step]
      unfold imu_callback
      dsimp only
      intro i p hpi
      split_ifs at hpi with h1 h2
      · cases hc : s.surface_data s.current_surface with
        | none => rw [hc] at hpi; exact hs i p hpi
        | some prof =>
            rw [hc] at hpi
            simp only [setSurf] at hpi
            split at hpi
            · cases Option.some.inj hpi
              exact hs s.current_surface prof hc
            · exact hs i p hpi
      · exact hs i p hpi
      · exact hs i p hpi
  | joystick d => simpa [step, joystick_surface_data_eq] using hs

/-- Claim C9: in every reachable state, every profile stored in the surface
registry (the sentinel's included) has `max_accel = 0.25`: profiles are only
ever created from the default or copied from stored profiles, and the
vibration ratchet mutates only `max_x_vel`, so no operation ever changes any
profile's `max_accel`. -/
theorem registry_max_accel_invariant (es : List Event) (i : Int)
    (p : SurfaceProfile) (hp : (run es).surface_data i = some p) :
    p.max_accel = 1/4 := by
  suffices h : ∀ s : ControlState,
      (∀ j q, s.surface_data j = some q → q.max_accel = 1/4) →
      ∀ j q, (runFrom s es).surface_data j = some q → q.max_accel = 1/4 by
    refine h initialState ?_ i p hp
    intro j q hq
    simp only [initialState] at hq
    split at hq
    · cases Option.some.inj hq
      rfl
    · exact Option.noConfusion hq
  clear hp
  induction es with
  | nil => intro s hs; exact hs
  | cons e es ih => intro s hs; exact ih (step s e) (step_accel_invariant e s hs)

/-- Witness for C9: the empty trace and the sentinel entry. -/
theorem registry_max_accel_invariant_witness : default_dict.max_accel = 1/4 :=
  registry_max_accel_invariant [] (-1) default_dict (by simp [run, runFrom, initialState])

/-! ### Claim C6: ratchet monotonicity for promoted surfaces -/

/-- One event never raises the stored `max_x_vel` of a promoted (non-sentinel)
surface: the only write to an existing non-sentinel entry is the vibration
ratchet, which moves it down by at least `0.15`. -/
theorem step_ratchet_mono (e : Event) (s : ControlState) (A : Int)
    (hA : A ≠ -1) (p : SurfaceProfile) (hp : s.surface_data A = some p) :
    ∃ q, (step s e).surface_data A = some q ∧ q.max_x_vel ≤ p.max_x_vel := by
  cases e with
  | surface d =>
      simp only [step]
      unfold surface_callback
      dsimp only
      split_ifs with h1 h2
      · have hd : A ≠ d := by
          intro h
          rw [h, h1] at hp
          exact Option.noConfusion hp
        exact ⟨p, by simp [setSurf, hA, hd, hp], le_refl _⟩
      · have hd : A ≠ d := by
          intro h
          rw [h, h1] at hp
          exact Option.noConfusion hp
        exact ⟨p, by simp [setSurf, hd, hp], le_refl _⟩
      · exact ⟨p, by simp [setSurf, hA, hp], le_refl _⟩
  | bumpiness d => exact ⟨p, by simpa [step, bumpiness_surface_data_eq] using hp, le_refl _⟩
  | odometry d => exact ⟨p, by simpa [step, odometry_surface_data_eq] using hp, le_refl _⟩
  | imu z =>
      simp only [step]
      unfold imu_callback
      dsimp only
      split_ifs with h1 h2
      · cases hc : s.surface_data s.current_surface with
        | none => exact ⟨p, by simpa [hc] using hp, le_refl _⟩
        | some prof =>
            by_cases hcur : A = s.current_surface
            · have hpp : prof = p := by
                rw [← hcur, hp] at hc
                exact (Option.some.inj hc).symm
              subst hpp
              refine ⟨{ prof with
                  max_x_vel := min |s.previous_x_velocity| prof.max_x_vel - 3/20 },
                by simp [hc, setSurf, hcur], ?_⟩
              have h3 : min |s.previous_x_velocity| prof.max_x_vel ≤ prof.max_x_vel :=
                min_le_right _ _
              simp only
              linarith
            · exact ⟨p, by simp [hc, setSurf, hcur, hp], le_refl _⟩
      · exact ⟨p, by simpa using hp, le_refl _⟩
      · exact ⟨p, by simpa using hp, le_refl _⟩
  | joystick d => exact ⟨p, by simpa [step, joystick_surface_data_eq] using hp, le_refl _⟩

/-- Claim C6: for every promoted (non-sentinel) surface id `A` holding
profile `p` at any point of the process lifetime, after any further sequence
of events `A` still has an entry and its stored `max_x_vel` has not
increased: each vibration ratchet lowers it and no operation ever raises it. -/
theorem promoted_surface_ratchet_monotone (es : List Event) (s : ControlState)
    (A : Int) (hA : A ≠ -1) (p : SurfaceProfile)
    (hp : s.surface_data A = some p) :
    ∃ q, (runFrom s es).surface_data A = some q ∧
      q.max_x_vel ≤ p.max_x_vel := by
  induction es generalizing s p with
  | nil => exact ⟨p, hp, le_refl _⟩
  | cons e es ih =>
      obtain ⟨q, hq, hle⟩ := step_ratchet_mono e s A hA p hp
      obtain ⟨r, hr, hle2⟩ := ih (step s e) q hq
      exact ⟨r, hr, le_trans hle2 hle⟩

/-- Witness for C6: surface `5` promoted from the sentinel on the empty
history, then one IMU sample. -/
theorem promoted_surface_ratchet_monotone_witness :
    ∃ q, (runFrom (run [Event.surface 5]) [Event.imu 0]).surface_data 5 =
        some q ∧ q.max_x_vel ≤ default_dict.max_x_vel :=
  promoted_surface_ratchet_monotone [Event.imu 0] (run [Event.surface 5]) 5
    (by decide) default_dict
    (by norm_num [run, runFrom, step, surface_callback, initialState, setSurf])

/-! ### Claim C4: the anticipation window -/

/-- A state with both anticipation flags cleared and no window open stays
that way under any odometry sample. -/
theorem odometry_cleared_step (d : OdometryMsg) (s : ControlState)
    (h1 : s.upcoming_bumpiness = false) (h2 : s.surface_transition = false)
    (h3 : s.start_position = 0) :
    (odometry_callback d s).upcoming_bumpiness = false ∧
    (odometry_callback d s).surface_transition = false ∧
    (odometry_callback d s).start_position = 0 := by
  unfold odometry_callback
  dsimp only
  simp [h1, h2, h3]

/-- A cleared anticipation state stays cleared over any run of odometry
samples. -/
theorem odometry_cleared_run (msgs : List OdometryMsg) :
    ∀ s : ControlState, s.upcoming_bumpiness = false →
      s.surface_transition = false → s.start_position = 0 →
      (runFrom s (msgs.map Event.odometry)).upcoming_bumpiness = false ∧
      (runFrom s (msgs.map Event.odometry)).surface_transition = false ∧
      (runFrom s (msgs.map Event.odometry)).start_position = 0 := by
  induction msgs with
  | nil => intro s h1 h2 h3; exact ⟨h1, h2, h3⟩
  | cons m ms ih =>
      intro s h1 h2 h3
      obtain ⟨a, b, c⟩ := odometry_cleared_step m s h1 h2 h3
      simpa [runFrom, step] using ih (odometry_callback m s) a b c

/-- With a window open at nonzero start position and the rougher flag
latched, one odometry sample either closes the window (when the distance
from the recorded start reaches the lookahead) or leaves the anticipation
state untouched. -/
theorem odometry_window_step (d : OdometryMsg) (s : ControlState)
    (hflag : s.upcoming_bumpiness = true) (hsp : s.start_position ≠ 0) :
    (lidar_look_ahead_distance_m ≤ |d.position_x - s.start_position| →
      (odometry_callback d s).upcoming_bumpiness = false ∧
      (odometry_callback d s).surface_transition = false ∧
      (odometry_callback d s).start_position = 0) ∧
    (¬ lidar_look_ahead_distance_m ≤ |d.position_x - s.start_position| →
      (odometry_callback d s).upcoming_bumpiness = true ∧
      (odometry_callback d s).surface_transition = s.surface_transition ∧
      (odometry_callback d s).start_position = s.start_position) := by
  unfold odometry_callback
  dsimp only
  constructor <;> intro h
  · simp [hsp, h]
  · simp [hsp, h, hflag]

/-- Claim C4 (amended): from any state in which `upcoming_bumpiness` is
latched and a transition window is open at a recorded nonzero start
position, the flag is cleared by a run of position samples exactly when one
of them lies at distance at least 0.45 m from the *recorded window start* —
applied to every prefix this says the flag clears exactly on the first such
sample.  (As stated the claim measures from the latch point; the
counterexample shows the recorded window start can differ from it, and claim
C10 covers the position-0 failure to open a window.) -/
theorem anticipation_window_closes (msgs : List OdometryMsg) :
    ∀ s : ControlState, s.upcoming_bumpiness = true → s.start_position ≠ 0 →
      ((runFrom s (msgs.map Event.odometry)).upcoming_bumpiness = false ↔
        ∃ m ∈ msgs,
          lidar_look_ahead_distance_m ≤ |m.position_x - s.start_position|) := by
  induction msgs with
  | nil =>
      intro s hs hsp
      simp [runFrom, hs]
  | cons m ms ih =>
      intro s hs hsp
      by_cases hcross :
          lidar_look_ahead_distance_m ≤ |m.position_x - s.start_position|
      · obtain ⟨a, b, c⟩ := (odometry_window_step m s hs hsp).1 hcross
        have hrest := odometry_cleared_run ms (odometry_callback m s) a b c
        constructor
        · intro _
          exact ⟨m, List.mem_cons_self m ms, hcross⟩
        · intro _
          simpa [runFrom, step] using hrest.1
      · obtain ⟨a, b, c⟩ := (odometry_window_step m s hs hsp).2 hcross
        have hnext := ih (odometry_callback m s) a (by rw [c]; exact hsp)
        rw [c] at hnext
        constructor
        · intro h
          obtain ⟨m', hm', hc'⟩ := hnext.mp (by simpa [runFrom, step] using h)
          exact ⟨m', List.mem_cons_of_mem m hm', hc'⟩
        · rintro ⟨m', hm', hc'⟩
          rcases List.mem_cons.mp hm' with rfl | hm'
          · exact absurd hc' hcross
          · simpa [runFrom, step] using hnext.mpr ⟨m', hm', hc'⟩

/-- Witness for the amended C4: one sample one metre past the window start
clears the latched flag. -/
theorem anticipation_window_closes_witness :
    (runFrom c4WitnessState
        ([c4WitnessMsg].map Event.odometry)).upcoming_bumpiness = false ↔
      ∃ m ∈ [c4WitnessMsg],
        lidar_look_ahead_distance_m ≤
          |m.position_x - c4WitnessState.start_position| :=
  anticipation_window_closes [c4WitnessMsg] c4WitnessState rfl
    (by norm_num [c4WitnessState, initialState])

/-- Counterexample to claim C4 as stated: after `c4latchTrace` the rougher
flag has just been latched (robot at x = 10.4, next sample x = 10.44), yet
the sample at x = 10.46 — only 0.06 m past the latch-time position and
0.02 m past the first post-latch sample, both far below 0.45 m — clears the
flag, because the already-open window recorded at x = 10 governs the
clearing.  So the flag is cleared on an earlier sample than the first one
0.45 m from the latch point. -/
theorem anticipation_window_counterexample :
    (run c4latchTrace).upcoming_bumpiness = true ∧
    (run c4fullTrace).upcoming_bumpiness = false ∧
    |(523/50 : ℚ) - 52/5| < lidar_look_ahead_distance_m ∧
    |(523/50 : ℚ) - 261/25| < lidar_look_ahead_distance_m := by
  refine ⟨?_, ?_, ?_, ?_⟩ <;>
    norm_num [c4latchTrace, c4fullTrace, run, runFrom, step, bumpiness_callback,
      odometry_callback, stampOf, lidar_look_ahead_distance_m, initialState,
      abs_of_nonneg, abs_of_nonpos]

/-! ### Claim C10: position 0 is the window's unset marker -/

/-- Claim C10: the anticipation window's unset marker is the position value
0.  First conjunct: an odometry sample at exactly x = 0 while a flag is
latched and no window is open leaves the window unopened (start stays 0)
and the flag set.  Second conjunct: concretely, after latching and a sample
at x = 0, a further sample a full metre away (≥ 0.45 m of travel from the
latch point) still leaves the flag set. -/
theorem zero_position_window_not_opened :
    (∀ (d : OdometryMsg) (s : ControlState), s.upcoming_bumpiness = true →
      s.start_position = 0 → d.position_x = 0 →
      (odometry_callback d s).start_position = 0 ∧
      (odometry_callback d s).upcoming_bumpiness = true) ∧
    ((run c10latchTrace).upcoming_bumpiness = true ∧
     (run c10latchTrace).start_position = 0 ∧
     (run c10fullTrace).upcoming_bumpiness = true ∧
     |(1 : ℚ) - 0| ≥ lidar_look_ahead_distance_m) := by
  constructor
  · intro d s h1 h2 h3
    unfold odometry_callback
    dsimp only
    simp [h1, h2, h3]
  · refine ⟨?_, ?_, ?_, ?_⟩ <;>
      norm_num [c10latchTrace, c10fullTrace, run, runFrom, step,
        bumpiness_callback, odometry_callback, stampOf,
        lidar_look_ahead_distance_m, initialState, abs_of_nonneg, abs_of_nonpos]

/-- Witness for C10: the first conjunct applied at a concrete sample and
state. -/
theorem zero_position_window_not_opened_witness :
    (odometry_callback { linear_x := 0, secs := 5, nsecs := 0, position_x := 0 }
        { initialState with upcoming_bumpiness := true }).start_position = 0 ∧
    (odometry_callback { linear_x := 0, secs := 5, nsecs := 0, position_x := 0 }
        { initialState with upcoming_bumpiness := true }).upcoming_bumpiness
      = true :=
  zero_position_window_not_opened.1 _ _ rfl rfl rfl

/-! ### Claim C2: the vibration ratchet condition -/

/-- The population variance computed by the monitor is nonnegative. -/
theorem npVariance_nonneg (xs : List ℚ) : 0 ≤ npVariance xs := by
  unfold npVariance
  apply div_nonneg
  · apply List.sum_nonneg
    intro x hx
    obtain ⟨y, hy, rfl⟩ := List.mem_map.mp hx
    positivity
  · positivity

/-- Justification of the rational embedding of `np.std(accels) > 0.45`:
`np.std` returns the square root of `npVariance`, and for the positive
threshold the comparison is equivalent to `npVariance > threshold²`. -/
theorem np_std_gt_threshold_iff (xs : List ℚ) :
    ((vibration_threshold : ℚ) : ℝ) < Real.sqrt ((npVariance xs : ℚ) : ℝ) ↔
      vibration_threshold ^ 2 < npVariance xs := by
  rw [Real.lt_sqrt (by norm_num [vibration_threshold])]
  exact_mod_cast Iff.rfl

/-- Claim C2 (amended): when the vibration buffer reaches 20 samples the
monitor clears it, and it reduces the active surface's `max_x_vel` to
`min(|previous_x_velocity|, current_max) - 0.15` if and only if the window's
standard deviation exceeds 0.45 AND the command magnitude strictly increased
on the most recent step AND the *smoother*-transition flag
(`surface_transition`) is not set; the rougher-transition flag
(`upcoming_bumpiness`) does not gate the ratchet.  Otherwise the registry is
unchanged. -/
theorem vibration_ratchet_spec (z : ℚ) (s : ControlState)
    (prof : SurfaceProfile)
    (hlen : 20 ≤ (s.accels ++ [z]).length)
    (hprof : s.surface_data s.current_surface = some prof) :
    (imu_callback z s).accels = [] ∧
    ((npVariance (s.accels ++ [z]) > vibration_threshold ^ 2 ∧
        |s.older_x_velocity| < |s.previous_x_velocity| ∧
        s.surface_transition = false) →
      (imu_callback z s).surface_data =
        setSurf s.surface_data s.current_surface
          { prof with max_x_vel :=
              (min |s.previous_x_velocity| prof.max_x_vel - 3/20) }) ∧
    (¬(npVariance (s.accels ++ [z]) > vibration_threshold ^ 2 ∧
        |s.older_x_velocity| < |s.previous_x_velocity| ∧
        s.surface_transition = false) →
      (imu_callback z s).surface_data = s.surface_data) := by
  unfold imu_callback
  dsimp only
  rw [if_pos hlen]
  by_cases hcond : npVariance (s.accels ++ [z]) > vibration_threshold ^ 2 ∧
      |s.older_x_velocity| < |s.previous_x_velocity| ∧
      s.surface_transition = false
  · rw [if_pos hcond, hprof]
    exact ⟨rfl, fun _ => rfl, fun hn => absurd hcond hn⟩
  · rw [if_neg hcond]
    exact ⟨rfl, fun hc => absurd hc hcond, fun _ => rfl⟩

/-- Witness for the amended C2: the 20th sample fills the window
(std 0.5 > 0.45), the ratchet fires and lowers the sentinel's max speed to
`min(0.25, 2) - 0.15 = 0.1`, and the buffer is cleared. -/
theorem vibration_ratchet_spec_witness :
    (imu_callback 1 c2WitnessState).accels = [] ∧
    (imu_callback 1 c2WitnessState).surface_data =
      setSurf c2WitnessState.surface_data c2WitnessState.current_surface
        { default_dict with
            max_x_vel :=
              (min |c2WitnessState.previous_x_velocity|
                default_dict.max_x_vel - 3/20) } := by
  have h := vibration_ratchet_spec 1 c2WitnessState default_dict
    (by norm_num [c2WitnessState, initialState])
    (by norm_num [c2WitnessState, initialState])
  refine ⟨h.1, h.2.1 ?_⟩
  refine ⟨?_, ?_, ?_⟩ <;>
    norm_num [c2WitnessState, initialState, npVariance, npMean,
      vibration_threshold, abs_of_nonneg]

set_option maxHeartbeats 2000000 in
/-- Counterexample to claim C2 as stated: when the 20th sample arrives, the
window's standard deviation is 0.5 > 0.45, the command magnitude strictly
increased, and a *rougher* surface transition is currently anticipated
(`upcoming_bumpiness = true`, `surface_transition = false`).  The claim as
stated ("no surface transition — neither rougher nor smoother — is
anticipated") then requires the registry to stay unchanged, but the code
ratchets the active (sentinel) profile from max speed 2 down to
`min(0.25, 2) - 0.15 = 0.1`: only the smoother flag gates the ratchet. -/
theorem vibration_ratchet_counterexample :
    (run c2preTrace).upcoming_bumpiness = true ∧
    (run c2preTrace).surface_transition = false ∧
    (run c2preTrace).surface_data (-1) = some default_dict ∧
    (run c2fullTrace).surface_data (-1) =
      some { max_x_vel := 1/10, max_accel := 1/4 } := by
  refine ⟨?_, ?_, ?_, ?_⟩ <;>
    norm_num [c2preTrace, c2fullTrace, c2joyHold, c2joyGo, run, runFrom, step,
      joystick_callback, bumpiness_callback, imu_callback, calculate_pid,
      clamped_target, ramped_target, joyStamp, stampOf, initialState, setSurf,
      default_dict, npVariance, npMean, vibration_threshold, kp, ki, kd,
      List.replicate, abs_of_nonneg, abs_of_nonpos]

/-! ### Claim C3: the acceleration clamp -/

/-- Claim C3 (amended): on every non-hold joystick sample (deadman pressed,
guard clear, `dt ≠ 0`, not the first sample) the published command is the
PID correction of the acceleration-limited target, and that *pre-PID* target
obeys the clamp: `|(ramped_target - previous)/dt| ≤ max_accel`.  The
published (post-PID) command itself can exceed the bound, being the clamped
target plus the PID trim `ki·i + kd·d` — see the counterexample. -/
theorem acceleration_clamp_pre_pid (d : JoyMsg) (s : ControlState)
    (hdead : d.buttons9 ≠ 0)
    (hguard : ¬(s.previous_x_velocity > 2 ∨ s.previous_x_velocity < -2))
    (hdt : joyStamp d - s.previous_stamp ≠ 0) (hfirst : s.previous_stamp ≠ 0)
    (hacc :
      0 ≤ ((s.surface_data s.current_surface).getD default_dict).max_accel) :
    (joystick_callback d s).1 =
      JoyResult.published (calculate_pid (ramped_target d s) s).1 ∧
    |(ramped_target d s - s.previous_x_velocity) /
        (joyStamp d - s.previous_stamp)| ≤
      ((s.surface_data s.current_surface).getD default_dict).max_accel := by
  constructor
  · unfold joystick_callback
    dsimp only
    rw [if_neg hdead, if_neg hguard, if_neg (not_or.mpr ⟨hdt, hfirst⟩)]
  · unfold ramped_target
    dsimp only
    set prof := (s.surface_data s.current_surface).getD default_dict with hprof
    set dt := joyStamp d - s.previous_stamp with hdtdef
    set a := (clamped_target d s - s.previous_x_velocity) / dt with ha
    by_cases hgt : |a| > prof.max_accel
    · rw [if_pos hgt]
      have h1 : (if a < 0 then -prof.max_accel else prof.max_accel) * dt +
          s.previous_x_velocity - s.previous_x_velocity =
          (if a < 0 then -prof.max_accel else prof.max_accel) * dt :=
        add_sub_cancel_right _ _
      rw [h1, mul_div_cancel_right₀ _ hdt]
      by_cases hneg : a < 0
      · rw [if_pos hneg, abs_neg, abs_of_nonneg hacc]
      · rw [if_neg hneg, abs_of_nonneg hacc]
    · rw [if_neg hgt, ← ha]
      exact le_of_not_lt (by simpa using hgt)

/-- Counterexample to claim C3 as stated: a non-hold sample (previous stamp
1, `dt = 1`) publishes `100101/400000 = 0.2502525`, while the previous
commanded velocity is 0 and the active profile's `max_accel` is `0.25`:
the emitted command violates `|(output - previous)/dt| ≤ max_accel`,
because the PID correction (here `+ki·i + kd·d = 0.0002525`) is applied
*after* the acceleration clamp. -/
theorem acceleration_clamp_counterexample :
    c3state.previous_stamp = 1 ∧
    c3state.previous_x_velocity = 0 ∧
    joyStamp c3joy2 - c3state.previous_stamp = 1 ∧
    (joystick_callback c3joy2 c3state).1 = JoyResult.published (100101/400000) ∧
    ¬ |((100101/400000 : ℚ) - c3state.previous_x_velocity) /
          (joyStamp c3joy2 - c3state.previous_stamp)| ≤
        ((c3state.surface_data c3state.current_surface).getD
            default_dict).max_accel := by
  refine ⟨?_, ?_, ?_, ?_, ?_⟩ <;>
    norm_num [c3state, c3odoMsg, c3joy1, c3joy2, run, runFrom, step,
      odometry_callback, joystick_callback, calculate_pid, ramped_target,
      clamped_target, joyStamp, stampOf, initialState, setSurf, default_dict,
      kp, ki, kd, lidar_look_ahead_distance_m, abs_of_nonneg, abs_of_nonpos]

/-- Witness for the amended C3: the counterexample's decisive sample — the
published value is the PID correction of the clamped target and the clamped
target itself obeys the acceleration bound. -/
theorem acceleration_clamp_pre_pid_witness :
    (joystick_callback c3joy2 c3state).1 =
      JoyResult.published (calculate_pid (ramped_target c3joy2 c3state) c3state).1 ∧
    |(ramped_target c3joy2 c3state - c3state.previous_x_velocity) /
        (joyStamp c3joy2 - c3state.previous_stamp)| ≤
      ((c3state.surface_data c3state.current_surface).getD
          default_dict).max_accel :=
  acceleration_clamp_pre_pid c3joy2 c3state (by decide)
    (by norm_num [c3state, c3odoMsg, c3joy1, c3joy2, run, runFrom, step,
      odometry_callback, joystick_callback, joyStamp, stampOf, initialState])
    (by norm_num [c3state, c3odoMsg, c3joy1, c3joy2, run, runFrom, step,
      odometry_callback, joystick_callback, joyStamp, stampOf, initialState])
    (by norm_num [c3state, c3odoMsg, c3joy1, c3joy2, run, runFrom, step,
      odometry_callback, joystick_callback, joyStamp, stampOf, initialState])
    (by norm_num [c3state, c3odoMsg, c3joy1, c3joy2, run, runFrom, step,
      odometry_callback, joystick_callback, joyStamp, stampOf, initialState,
      setSurf, default_dict])
